import Mathlib

/-!
Shallow embedding of the calibration session state machine of
`src/XSensMVN/src/XSensMVNCalibrator.cpp` (class `xsensmvn::XSensMVNCalibrator`),
together with theorems settling the claims about it.

Modelling conventions:
* The calibrator's member variables become the fields of `CalibratorState`.
* Mutating commands issued to the tracking-engine handle (`m_suitsConnector`)
  are recorded in an explicit trace of `HandleCommand`s.  Read-only queries on
  the handle (`status().isConnected()`, `bodyDimensionLabelList()`,
  `isCalibrationPerformed`, `calibrationPhaseList`, `calibrationResult`,
  `calibrationPose`, `calibrationPhaseText`) do not mutate device state and are
  passed in as parameters instead of being traced.
* Asynchronous callbacks (`onCalibrationAborted`, `onCalibrationComplete`,
  `onCalibrationProcessed`) flip boolean flags from another thread.  Busy-wait
  loops are resolved by an environment record saying which notification (if
  any) arrives while the loop polls; a wait that no notification ever releases
  makes the procedure return `none` (divergence).
* `double` body-dimension values are represented by `Int`: no claim depends on
  fractional arithmetic, only on presence/absence and the `-1` sentinel, which
  the source itself compares after `static_cast<int>`.
-/

namespace xsensmvn

/-- Modelled from the spec: the declaration of `enum class CalibrationQuality`
sits in the XSensMVNCalibrator header, which is not among the provided
sources; the spec declares the total order
Unknown < Failed < Poor < Acceptable < Good, which is the enumerant order used
by the `<` comparison at XSensMVNCalibrator.cpp line 249. -/
inductive CalibrationQuality
  | UNKNOWN
  | FAILED
  | POOR
  | ACCEPTABLE
  | GOOD
  deriving DecidableEq, Repr, Fintype

/-- Modelled from the spec: numeric position of a grade in the declared total
order (Unknown = 0 up to Good = 4), standing in for the enum's underlying
value, which the missing header declares. -/
def CalibrationQuality.rank : CalibrationQuality → Nat
  | .UNKNOWN => 0
  | .FAILED => 1
  | .POOR => 2
  | .ACCEPTABLE => 3
  | .GOOD => 4

/-- Comparison performed at line 249:
`CalibrationQualitiesMap.at(calibrationResult.m_quality) < m_minimumAccaptableQuality`,
an `operator<` on the enum's underlying values. -/
def qualityLt (a b : CalibrationQuality) : Bool :=
  a.rank < b.rank

/-- Member state of `XSensMVNCalibrator` (fields of the class, file lines
41-53 for their constructor values). -/
structure CalibratorState where
  usedCalibrationType : String
  achievedCalibrationQuality : CalibrationQuality
  calibrationAborted : Bool
  calibrationInProgress : Bool
  calibrationProcessed : Bool
  operationCompleted : Bool
  deriving DecidableEq, Repr

/-- State established by the constructor (lines 41-53): empty type, quality
UNKNOWN, `m_calibrationAborted = false`, `m_calibrationInProgress = false`,
`m_calibrationProcessed = false`, `m_operationCompleted = true`. -/
def initialState : CalibratorState :=
  { usedCalibrationType := ""
    achievedCalibrationQuality := .UNKNOWN
    calibrationAborted := false
    calibrationInProgress := false
    calibrationProcessed := false
    operationCompleted := true }

/-- Mutating commands the calibrator can issue to the tracking-engine
handle `m_suitsConnector`. -/
inductive HandleCommand
  | clearCalibration (calibrationType : String)
  | initCalibration (calibrationType : String)
  | startCalibration
  | stopCalibration
  | finalizeCalibration
  | abortCmd
  | setBodyDimensionCmd (label : String) (value : Int)
  deriving DecidableEq, Repr

/-- `XSensMVNCalibrator::cleanup` (lines 343-349): resets type and quality and
sets `m_calibrationProcessed = m_operationCompleted = m_calibrationInProgress
= false` and `m_calibrationAborted = false`.  Note `m_operationCompleted`
is set to `false` here, while the constructor initialises it to `true`. -/
def cleanup (_s : CalibratorState) : CalibratorState :=
  { usedCalibrationType := ""
    achievedCalibrationQuality := .UNKNOWN
    calibrationAborted := false
    calibrationInProgress := false
    calibrationProcessed := false
    operationCompleted := false }

/-- `XSensMVNCalibrator::abortCalibration` (lines 294-303): when
`m_calibrationInProgress` it forwards the abort command to the handle and
returns `true`, otherwise it does nothing and returns `false`.  It never
touches the member flags, so the state is returned unchanged. -/
def abortCalibration (s : CalibratorState) : CalibratorState × Bool × List HandleCommand :=
  if s.calibrationInProgress then
    (s, true, [HandleCommand.abortCmd])
  else
    (s, false, [])

/-- Callback `onCalibrationAborted` (line 327): sets `m_calibrationAborted`. -/
def onCalibrationAborted (s : CalibratorState) : CalibratorState :=
  { s with calibrationAborted := true }

/-- Callback `onCalibrationComplete` (line 330): sets `m_operationCompleted`. -/
def onCalibrationComplete (s : CalibratorState) : CalibratorState :=
  { s with operationCompleted := true }

/-- Callback `onCalibrationProcessed` (lines 333-336): sets
`m_calibrationProcessed`. -/
def onCalibrationProcessed (s : CalibratorState) : CalibratorState :=
  { s with calibrationProcessed := true }

/-- Exit condition of the `setBodyDimensions` wait loop (line 105):
`while (!m_operationCompleted)` — it polls only the operation flag. -/
def bodyDimWaitExit (s : CalibratorState) : Bool :=
  s.operationCompleted

/-- Exit condition of the discard wait loop (line 167):
`while (isCalibrationPerformed && !m_calibrationAborted)`. -/
def discardWaitExit (stillPerformed : Bool) (s : CalibratorState) : Bool :=
  !stillPerformed || s.calibrationAborted

/-- Exit condition of the per-frame collection wait (line 192):
`while ((startingFrame < endingFrame) && !m_calibrationAborted)`. -/
def collectWaitExit (startingFrame endingFrame : Int) (s : CalibratorState) : Bool :=
  !(decide (startingFrame < endingFrame)) || s.calibrationAborted

/-- Exit condition of the processing wait loop (line 218):
`while (!m_calibrationProcessed && !m_calibrationAborted)`. -/
def processWaitExit (s : CalibratorState) : Bool :=
  s.calibrationProcessed || s.calibrationAborted

/-- Exit condition of the self-abort wait loop (line 261):
`while (!m_calibrationAborted)`. -/
def selfAbortWaitExit (s : CalibratorState) : Bool :=
  s.calibrationAborted

/-- Exit condition of the finalization wait loop (line 273):
`while (!m_operationCompleted && !m_calibrationAborted)`. -/
def finalizeWaitExit (s : CalibratorState) : Bool :=
  s.operationCompleted || s.calibrationAborted

/-- One poll iteration of a busy-wait loop during which no notification is
delivered: the loop body is a bare sleep, so the calibrator state is
unchanged. -/
def noNotifStep (s : CalibratorState) : CalibratorState :=
  s

/-- `XSensMVNCalibrator::setBodyDimensions` (lines 72-111).  Parameters:
`connected` is the result of the `m_suitsConnector.status().isConnected()`
query (line 75); `bodyDimList` is the handle's label vocabulary returned by
`bodyDimensionLabelList()` (line 86); `bodyDimensions` is the input map as its
ordered entry list; `completionFires` says whether the handle's
`onCalibrationComplete` callback is eventually delivered while the line-105
loop polls.  Result: `some r` with the return value, or `none` when the wait
loop never exits; paired with the resulting member state and the trace of
`setBodyDimension` commands issued at line 101. -/
def setBodyDimensions (connected : Bool) (s : CalibratorState)
    (bodyDimList : List String) (bodyDimensions : List (String × Int))
    (completionFires : Bool) :
    Option Bool × CalibratorState × List HandleCommand :=
  if !connected then
    -- line 75-78: device not connected
    (some false, s, [])
  else if !s.operationCompleted then
    -- line 81-84: an operation is already in progress
    (some false, s, [])
  else if bodyDimensions.isEmpty then
    -- line 88-91: empty body dimension list
    (some false, s, [])
  else
    -- line 93: rise the flag to signal an operation is ongoing
    let s1 : CalibratorState := { s with operationCompleted := false }
    -- lines 96-102: skip labels absent from the vocabulary, forward the rest
    let cmds : List HandleCommand :=
      (bodyDimensions.filter (fun p => bodyDimList.contains p.1)).map
        (fun p => HandleCommand.setBodyDimensionCmd p.1 p.2)
    -- lines 105-107: while (!m_operationCompleted) sleep;
    if completionFires then
      let s2 := onCalibrationComplete s1
      -- line 110: return m_operationCompleted
      (some s2.operationCompleted, s2, cmds)
    else
      (none, s1, cmds)

/-- `XSensMVNCalibrator::getBodyDimensions` (lines 114-137).  `estimate` is
the `bodyDimensionValueEstimate` query; entries whose value casts to the `-1`
sentinel are filtered out (line 129). -/
def getBodyDimensions (connected : Bool) (bodyDimList : List String)
    (estimate : String → Int) : Bool × List (String × Int) :=
  if !connected then
    (false, [])
  else
    (true, (bodyDimList.filter (fun b => estimate b ≠ -1)).map (fun b => (b, estimate b)))

/-- Outcome of `getBodyDimension`: the returned Bool, the value written to the
output parameter `dim` (`none` when the branch leaves `dim` unassigned), and
whether line 148 dereferenced `dimensions.end()`. -/
structure GetDimResult where
  ret : Bool
  dimAssigned : Option Int
  derefPastEnd : Bool
  deriving DecidableEq, Repr

/-- `XSensMVNCalibrator::getBodyDimension` (lines 139-150).  It builds
`dimensions` via `getBodyDimensions`, then tests `it != dimensions.end()` —
when the name IS found it logs "Impossible to find" and returns `false`
without touching `dim`; only when the name is absent does control reach
`dim = it->second` (line 148), a read through the end iterator, before
returning `true`. -/
def getBodyDimension (connected : Bool) (bodyDimList : List String)
    (estimate : String → Int) (bodyName : String) : GetDimResult :=
  let dimensions := (getBodyDimensions connected bodyDimList estimate).2
  match dimensions.lookup bodyName with
  | some _ =>
    -- lines 144-147: it != end() branch
    { ret := false, dimAssigned := none, derefPastEnd := false }
  | none =>
    -- lines 148-149: dim = it->second with it = end()
    { ret := true, dimAssigned := none, derefPastEnd := true }

/-- Bound of the collection loop at line 187:
`for (unsigned int phase = 0; phase < calibPhases.size() - 1; ++phase)`.
`calibPhases.size()` is unsigned (64-bit `XsSize`), so `size() - 1` is
computed modulo 2^64 and wraps to 2^64 - 1 when the list is empty. -/
def collectLoopBound (calibPhasesLen : Nat) : Nat :=
  (calibPhasesLen + (2 ^ 64 - 1)) % 2 ^ 64

/-- Guard of the line-187 loop for a given phase counter value (the counter is
an `unsigned int`, so its value is already reduced modulo 2^32). -/
def collectLoopGuard (calibPhasesLen phase : Nat) : Bool :=
  phase < collectLoopBound calibPhasesLen

/-- Earliest wait at which the `m_calibrationAborted` flag is observed `true`
during a `calibrateWithType` run (`never` when no abort notification arrives). -/
inductive AbortArrival
  | never
  | atDiscardWait
  | atCollection
  | atProcessingWait
  | atFinalizeWait
  deriving DecidableEq, Repr, Fintype

/-- Environment of one `calibrateWithType` run: the handle's replies to the
queries the procedure makes, and which asynchronous notifications are
delivered while it polls. -/
structure CalibEnv where
  /-- reply of `isCalibrationPerformed(calibrationType)` at line 158 -/
  isCalibrationPerformed : Bool
  /-- the handle eventually reports the prior calibration gone (line 167 loop) -/
  discardCompletes : Bool
  /-- reply of `calibrationPhaseList()` at line 179 -/
  calibPhases : List Int
  /-- `onCalibrationProcessed` is eventually delivered (line 218 loop) -/
  processedFires : Bool
  /-- `CalibrationQualitiesMap.at(calibrationResult.m_quality)` for the reply
  of `calibrationResult(calibrationType)` at line 232 -/
  resultQuality : CalibrationQuality
  /-- after the self-issued abort command, `onCalibrationAborted` is
  eventually delivered (line 261 loop) -/
  abortConfirmFires : Bool
  /-- `onCalibrationComplete` is eventually delivered after finalize
  (line 273 loop) -/
  finalizeCompletes : Bool
  /-- earliest wait at which an externally triggered abort is observed -/
  abortArrival : AbortArrival
  deriving DecidableEq, Repr

/-- `XSensMVNCalibrator::calibrateWithType` (lines 153-291), the body of a
`runCalibration` request.  Returns `some r` with the C++ return value, or
`none` when one of the busy-wait loops is never released; paired with the
final member state and the trace of commands issued to the handle. -/
def calibrateWithType (minQuality : CalibrationQuality) (s0 : CalibratorState)
    (calibrationType : String) (env : CalibEnv) :
    Option Bool × CalibratorState × List HandleCommand :=
  -- line 155: m_calibrationInProgress = true
  let s := { s0 with calibrationInProgress := true }
  -- lines 158-164: discard a previous calibration of the same type
  let discard := env.isCalibrationPerformed
  let s :=
    if discard then
      { s with usedCalibrationType := ""
               achievedCalibrationQuality := .UNKNOWN
               operationCompleted := false }
    else s
  let cmds := if discard then [HandleCommand.clearCalibration calibrationType] else []
  -- lines 167-169: wait until the discard completes or an abort is observed
  let s := if env.abortArrival = .atDiscardWait then onCalibrationAborted s else s
  -- lines 170-173: abort observed at the discard wait
  if s.calibrationAborted then
    (some false, cleanup s, cmds)
  else if discard && !env.discardCompletes then
    (none, s, cmds)
  else
    -- lines 176-184: initialize, query phases, start collection
    let cmds := cmds ++ [HandleCommand.initCalibration calibrationType,
                         HandleCommand.startCalibration]
    -- lines 187-205: per-phase collection; the line-199 abort check runs once
    -- per iteration, so it only fires when the loop body runs at all
    let s := if env.abortArrival = .atCollection then onCalibrationAborted s else s
    if s.calibrationAborted && 0 < collectLoopBound env.calibPhases.length then
      (some false, cleanup s, cmds)
    else
      -- lines 208-213: stop collection, reset the processed flag
      let cmds := cmds ++ [HandleCommand.stopCalibration]
      let s := { s with calibrationProcessed := false }
      -- lines 218-221: wait for onCalibrationProcessed or an abort
      let s := if env.abortArrival = .atProcessingWait then onCalibrationAborted s else s
      if s.calibrationAborted then
        -- lines 224-227
        (some false, cleanup s, cmds)
      else if !env.processedFires then
        (none, s, cmds)
      else
        let s := onCalibrationProcessed s
        -- lines 232-235: retrieve the calibration result
        let quality := env.resultQuality
        -- line 249: quality policy comparison
        if qualityLt quality minQuality then
          -- lines 249-266: reject by triggering the internal abort path;
          -- abortCalibration sees m_calibrationInProgress = true and forwards
          -- the abort command (line 260), then line 261 waits for the flag
          let cmds := cmds ++ [HandleCommand.abortCmd]
          if !env.abortConfirmFires then
            (none, s, cmds)
          else
            let s := onCalibrationAborted s
            (some false, cleanup s, cmds)
        else
          -- lines 267-275: finalize and wait for completion or abort
          let cmds := cmds ++ [HandleCommand.finalizeCalibration]
          let s := if env.abortArrival = .atFinalizeWait then onCalibrationAborted s else s
          if s.calibrationAborted then
            -- lines 278-281
            (some false, cleanup s, cmds)
          else if !s.operationCompleted && !env.finalizeCompletes then
            (none, s, cmds)
          else
            let s := { s with operationCompleted := true }
            -- lines 285-290: record the accepted calibration
            let s := { s with usedCalibrationType := calibrationType
                              achievedCalibrationQuality := quality
                              calibrationInProgress := false }
            (some true, s, cmds)

/-- Benign environment: no external abort, every notification the procedure
waits for is eventually delivered, no prior calibration of this type exists,
and the phase list is the two-phase list of the spec's end-to-end scenario. -/
def benignEnv (quality : CalibrationQuality) : CalibEnv :=
  { isCalibrationPerformed := false
    discardCompletes := true
    calibPhases := [0, 10, 20]
    processedFires := true
    resultQuality := quality
    abortConfirmFires := true
    finalizeCompletes := true
    abortArrival := .never }

/-- C3 counterexample: `cleanup()` does NOT restore the freshly-constructed
state — it sets `operationCompleted` to `false`, while the constructor
initialises it to `true`. -/
theorem c3_counterexample :
    cleanup initialState ≠ initialState ∧
    (cleanup initialState).operationCompleted = false ∧
    initialState.operationCompleted = true := by
  decide

/-- C3 (amended): after any call to `cleanup()`, `usedCalibrationType` is
empty, `achievedCalibrationQuality` is UNKNOWN, and the flags hold
`inProgress = false`, `aborted = false`, `dataProcessed = false` — matching
the constructor — but `operationCompleted = false`, whereas the constructor
initialises it to `true`. -/
theorem c3_cleanup_resets :
    ∀ s : CalibratorState,
      (cleanup s).usedCalibrationType = "" ∧
      (cleanup s).achievedCalibrationQuality = CalibrationQuality.UNKNOWN ∧
      (cleanup s).calibrationInProgress = false ∧
      (cleanup s).calibrationAborted = false ∧
      (cleanup s).calibrationProcessed = false ∧
      (cleanup s).operationCompleted = false ∧
      initialState.operationCompleted = true :=
  fun _ => ⟨rfl, rfl, rfl, rfl, rfl, rfl, rfl⟩

/-- C7: `cleanup()` is idempotent — applying it twice yields exactly the same
observable state as applying it once, from every starting state. -/
theorem c7_cleanup_idempotent :
    ∀ s : CalibratorState, cleanup (cleanup s) = cleanup s :=
  fun _ => rfl

/-- C4: `abortCalibration()` forwards the abort command to the handle and
returns `true` exactly when `m_calibrationInProgress` is set; otherwise it is
a no-op returning `false` with an empty command trace.  In neither case does
it change `m_calibrationAborted`; only the `onCalibrationAborted` callback
sets that flag. -/
theorem c4_abort_contract :
    ∀ s : CalibratorState,
      ((abortCalibration s).2.1 = true ↔ s.calibrationInProgress = true) ∧
      ((abortCalibration s).2.2 = [HandleCommand.abortCmd] ↔
        s.calibrationInProgress = true) ∧
      (s.calibrationInProgress = false → abortCalibration s = (s, false, [])) ∧
      (abortCalibration s).1 = s ∧
      (onCalibrationAborted s).calibrationAborted = true := by
  intro s
  cases h : s.calibrationInProgress <;>
    simp [abortCalibration, onCalibrationAborted, h]

/-- C4 witness: on the freshly-constructed state (`inProgress = false`) the
call is a no-op returning `false` with zero commands. -/
theorem c4_abort_contract_witness :
    abortCalibration initialState = (initialState, false, []) :=
  (c4_abort_contract initialState).2.2.1 rfl

/-- C8: with an empty phase-boundary list, the line-187 bound
`calibPhases.size() - 1` wraps to `2^64 - 1` in unsigned arithmetic, so the
collection loop is entered rather than skipped, its guard stays true for every
reachable phase-counter value, and the indices `phase` and `phase + 1` read at
lines 188-189 lie past the end of the empty list. -/
theorem c8_empty_phases_underflow :
    collectLoopBound (List.length ([] : List Int)) = 2 ^ 64 - 1 ∧
    collectLoopGuard (List.length ([] : List Int)) 0 = true ∧
    (∀ phase : Nat, phase < 2 ^ 32 → collectLoopGuard 0 phase = true) ∧
    ([] : List Int).get? 0 = none ∧
    ([] : List Int).get? (0 + 1) = none := by
  refine ⟨by decide, by decide, ?_, rfl, rfl⟩
  intro phase h
  simp only [collectLoopGuard, collectLoopBound, decide_eq_true_eq]
  norm_num
  omega

/-- C8 witness: the guard holds at a concrete phase value the loop reaches. -/
theorem c8_empty_phases_underflow_witness :
    collectLoopGuard 0 5 = true :=
  c8_empty_phases_underflow.2.2.1 5 (by norm_num)

/-- C9: whenever `bodyName` IS present in the map produced by
`getBodyDimensions`, `getBodyDimension` returns `false` and leaves `dim`
unassigned; the `return true` branch is reached only when `bodyName` is
absent, and there it reads through the map's end iterator. -/
theorem c9_inverted_find :
    ∀ (connected : Bool) (bodyDimList : List String) (estimate : String → Int)
      (bodyName : String),
      (((getBodyDimensions connected bodyDimList estimate).2.lookup
          bodyName).isSome = true →
        getBodyDimension connected bodyDimList estimate bodyName =
          { ret := false, dimAssigned := none, derefPastEnd := false }) ∧
      ((getBodyDimension connected bodyDimList estimate bodyName).ret = true →
        (getBodyDimensions connected bodyDimList estimate).2.lookup bodyName
            = none ∧
        (getBodyDimension connected bodyDimList estimate bodyName).derefPastEnd
            = true) := by
  intro connected bodyDimList estimate bodyName
  unfold getBodyDimension
  cases h : (getBodyDimensions connected bodyDimList estimate).2.lookup bodyName <;>
    simp [h]

/-- C9 witness: with vocabulary `["Head"]` and estimate 3 everywhere, the name
"Head" is present and yields `ret = false` with `dim` untouched, while the
absent name "Arm" reaches the `return true` branch through the end iterator. -/
theorem c9_inverted_find_witness :
    getBodyDimension true ["Head"] (fun _ => 3) "Head" =
      { ret := false, dimAssigned := none, derefPastEnd := false } ∧
    ((getBodyDimensions true ["Head"] (fun _ => 3)).2.lookup "Arm" = none ∧
      (getBodyDimension true ["Head"] (fun _ => 3) "Arm").derefPastEnd = true) :=
  ⟨(c9_inverted_find true ["Head"] (fun _ => 3) "Head").1 (by decide),
   (c9_inverted_find true ["Head"] (fun _ => 3) "Arm").2 (by decide)⟩

/-- C1: over all 5x5 (quality, threshold) pairs, a run that reaches the
evaluation stage rejects exactly when the achieved quality is below the
threshold in the declared total order — taking the self-abort path that ends
issuing the abort command, then `cleanup`, returning `false` — and accepts
(issues finalize and returns `true`) exactly when quality >= threshold. -/
theorem c1_quality_policy :
    ∀ q t : CalibrationQuality,
      (qualityLt q t = true →
        calibrateWithType t initialState "Npose" (benignEnv q) =
          (some false, cleanup initialState,
           [HandleCommand.initCalibration "Npose", HandleCommand.startCalibration,
            HandleCommand.stopCalibration, HandleCommand.abortCmd])) ∧
      (qualityLt q t = false →
        (calibrateWithType t initialState "Npose" (benignEnv q)).1 = some true ∧
        (calibrateWithType t initialState "Npose" (benignEnv q)).2.2 =
          [HandleCommand.initCalibration "Npose", HandleCommand.startCalibration,
           HandleCommand.stopCalibration, HandleCommand.finalizeCalibration]) := by
  decide

/-- C1 witness: Poor < Acceptable is rejected, Good >= Acceptable is
accepted. -/
theorem c1_quality_policy_witness :
    calibrateWithType CalibrationQuality.ACCEPTABLE initialState "Npose"
        (benignEnv CalibrationQuality.POOR) =
      (some false, cleanup initialState,
       [HandleCommand.initCalibration "Npose", HandleCommand.startCalibration,
        HandleCommand.stopCalibration, HandleCommand.abortCmd]) ∧
    (calibrateWithType CalibrationQuality.ACCEPTABLE initialState "Npose"
        (benignEnv CalibrationQuality.GOOD)).1 = some true :=
  ⟨(c1_quality_policy .POOR .ACCEPTABLE).1 (by decide),
   ((c1_quality_policy .GOOD .ACCEPTABLE).2 (by decide)).1⟩

/-- C2 counterexample: the `setBodyDimensions` wait loop (line 105) is a
busy-wait of the component whose exit condition ignores the `aborted` flag —
in a state with `aborted = true` and `operationCompleted = false` the loop
does not exit. -/
theorem c2_counterexample :
    bodyDimWaitExit
      { usedCalibrationType := ""
        achievedCalibrationQuality := .UNKNOWN
        calibrationAborted := true
        calibrationInProgress := false
        calibrationProcessed := false
        operationCompleted := false } = false := by
  decide

/-- C2 (amended): every busy-wait loop of `calibrateWithType` exits when its
operation-specific flag or `aborted` becomes true, and an abort observed at
any of its waits routes the run to the failure path (`cleanup`, return
`false`); the `setBodyDimensions` wait loop is the exception — its exit
condition polls only `operationCompleted` and ignores `aborted`. -/
theorem c2_wait_loops :
    (∀ s : CalibratorState, bodyDimWaitExit s = s.operationCompleted) ∧
    (∀ (stillPerformed : Bool) (startingFrame endingFrame : Int)
       (s : CalibratorState),
      s.calibrationAborted = true →
        discardWaitExit stillPerformed s = true ∧
        collectWaitExit startingFrame endingFrame s = true ∧
        processWaitExit s = true ∧
        selfAbortWaitExit s = true ∧
        finalizeWaitExit s = true) ∧
    (∀ arr : AbortArrival, arr ≠ .never →
      (calibrateWithType CalibrationQuality.ACCEPTABLE initialState "Npose"
          { benignEnv CalibrationQuality.GOOD with abortArrival := arr }).1
        = some false ∧
      (calibrateWithType CalibrationQuality.ACCEPTABLE initialState "Npose"
          { benignEnv CalibrationQuality.GOOD with abortArrival := arr }).2.1
        = cleanup initialState) := by
  refine ⟨fun _ => rfl, ?_, by decide⟩
  intro stillPerformed startingFrame endingFrame s h
  simp [discardWaitExit, collectWaitExit, processWaitExit, selfAbortWaitExit,
    finalizeWaitExit, h]

/-- C2 witness: with `aborted = true` the processing wait exits, and an abort
observed at the processing wait makes the run fail via `cleanup`. -/
theorem c2_wait_loops_witness :
    processWaitExit
      { usedCalibrationType := ""
        achievedCalibrationQuality := .UNKNOWN
        calibrationAborted := true
        calibrationInProgress := false
        calibrationProcessed := false
        operationCompleted := false } = true ∧
    (calibrateWithType CalibrationQuality.ACCEPTABLE initialState "Npose"
        { benignEnv CalibrationQuality.GOOD with
            abortArrival := .atProcessingWait }).1 = some false :=
  ⟨(c2_wait_loops.2.1 true 0 0 _ rfl).2.2.1,
   (c2_wait_loops.2.2 .atProcessingWait (by decide)).1⟩

/-- C5: on the accepted outcome (quality meets the threshold, finalization
completes without abort) the session records `usedCalibrationType` equal to
the requested type, `achievedCalibrationQuality` equal to the device-reported
quality, clears `inProgress`, and returns `true`. -/
theorem c5_accept_records (calibrationType : String)
    (q minQ : CalibrationQuality) (h : qualityLt q minQ = false) :
    calibrateWithType minQ initialState calibrationType (benignEnv q) =
      (some true,
       { usedCalibrationType := calibrationType
         achievedCalibrationQuality := q
         calibrationAborted := false
         calibrationInProgress := false
         calibrationProcessed := true
         operationCompleted := true },
       [HandleCommand.initCalibration calibrationType,
        HandleCommand.startCalibration, HandleCommand.stopCalibration,
        HandleCommand.finalizeCalibration]) := by
  simp [calibrateWithType, benignEnv, initialState, cleanup,
    onCalibrationAborted, onCalibrationProcessed, h]

/-- C5 witness: the spec's end-to-end scenario — quality Good against
threshold Acceptable for type "Npose". -/
theorem c5_accept_records_witness :
    calibrateWithType CalibrationQuality.ACCEPTABLE initialState "Npose"
        (benignEnv CalibrationQuality.GOOD) =
      (some true,
       { usedCalibrationType := "Npose"
         achievedCalibrationQuality := .GOOD
         calibrationAborted := false
         calibrationInProgress := false
         calibrationProcessed := true
         operationCompleted := true },
       [HandleCommand.initCalibration "Npose", HandleCommand.startCalibration,
        HandleCommand.stopCalibration, HandleCommand.finalizeCalibration]) :=
  c5_accept_records "Npose" .GOOD .ACCEPTABLE (by decide)

/-- C6: `setBodyDimensions` returns `false` issuing no command to the handle
when the handle is disconnected, when an operation is still pending
(`operationCompleted = false`), or when the input map is empty; for a
non-empty map it forwards exactly the entries whose label belongs to the
handle's vocabulary (unknown labels are skipped) and returns `true` once the
completion notification fires. -/
theorem c6_setBodyDimensions_contract :
    ∀ (connected : Bool) (s : CalibratorState) (bodyDimList : List String)
      (bodyDimensions : List (String × Int)) (completionFires : Bool),
      (connected = false →
        setBodyDimensions connected s bodyDimList bodyDimensions
          completionFires = (some false, s, [])) ∧
      (s.operationCompleted = false →
        setBodyDimensions connected s bodyDimList bodyDimensions
          completionFires = (some false, s, [])) ∧
      (bodyDimensions = [] →
        setBodyDimensions connected s bodyDimList bodyDimensions
          completionFires = (some false, s, [])) ∧
      (connected = true → s.operationCompleted = true → bodyDimensions ≠ [] →
        setBodyDimensions connected s bodyDimList bodyDimensions true =
          (some true, { s with operationCompleted := true },
           (bodyDimensions.filter (fun p => bodyDimList.contains p.1)).map
             (fun p => HandleCommand.setBodyDimensionCmd p.1 p.2))) := by
  intro connected s bodyDimList bodyDimensions completionFires
  refine ⟨?_, ?_, ?_, ?_⟩
  · intro h; simp [setBodyDimensions, h]
  · intro h; cases connected <;> simp [setBodyDimensions, h]
  · intro h
    cases connected <;> cases hop : s.operationCompleted <;>
      simp [setBodyDimensions, h, hop]
  · intro hc hop hne
    simp [setBodyDimensions, hc, hop, List.isEmpty_iff, hne,
      onCalibrationComplete]

/-- C6 witness: the spec's scenario — vocabulary `["Pelvis"]`, one unknown
label "Alien" and one known label "Pelvis": only the known one is forwarded
and the call returns `true` once the completion notification fires. -/
theorem c6_setBodyDimensions_contract_witness :
    setBodyDimensions true initialState ["Pelvis"]
        [("Alien", 2), ("Pelvis", 1)] true =
      (some true, { initialState with operationCompleted := true },
       [HandleCommand.setBodyDimensionCmd "Pelvis" 1]) := by
  have h := (c6_setBodyDimensions_contract true initialState ["Pelvis"]
    [("Alien", 2), ("Pelvis", 1)] true).2.2.2 rfl rfl (by decide)
  rw [h]
  decide

/-- C10: a non-empty map none of whose labels belongs to the vocabulary makes
`setBodyDimensions` lower `operationCompleted` and issue no per-label command,
so the line-105 wait depends on a completion notification no issued command
will trigger: when no notification arrives the wait loop's exit condition
stays false after every number of poll iterations. -/
theorem c10_unknown_labels_no_exit
    (s : CalibratorState) (bodyDimList : List String)
    (bodyDimensions : List (String × Int)) (hne : bodyDimensions ≠ [])
    (hop : s.operationCompleted = true)
    (hall : ∀ p ∈ bodyDimensions, bodyDimList.contains p.1 = false) :
    setBodyDimensions true s bodyDimList bodyDimensions false =
      (none, { s with operationCompleted := false }, []) ∧
    ∀ n : Nat,
      bodyDimWaitExit
        (noNotifStep^[n] { s with operationCompleted := false }) = false := by
  have hall' : ∀ (a : String) (b : Int),
      (a, b) ∈ bodyDimensions → a ∉ bodyDimList := by
    intro a b hab
    simpa using hall (a, b) hab
  constructor
  · simp [setBodyDimensions, hop, List.isEmpty_iff, hne]
    exact hall'
  · intro n
    rw [Function.iterate_fixed rfl]
    rfl

/-- C10 witness: an empty vocabulary and the single unknown label "Alien". -/
theorem c10_unknown_labels_no_exit_witness :
    setBodyDimensions true initialState [] [("Alien", 2)] false =
      (none, { initialState with operationCompleted := false }, []) ∧
    bodyDimWaitExit
      (noNotifStep^[1000] { initialState with operationCompleted := false })
      = false :=
  ⟨(c10_unknown_labels_no_exit initialState [] [("Alien", 2)] (by decide) rfl
      (by decide)).1,
   (c10_unknown_labels_no_exit initialState [] [("Alien", 2)] (by decide) rfl
      (by decide)).2 1000⟩

end xsensmvn
